import Mathlib

/-
Verification of the VoxCPM sync-and-play coordinator.

The definitions below are a shallow embedding of the JavaScript sources:

* CoordState, Event, natsArrive, natsTick, natsPlayDone, natsFetchDone,
  step, run embed the push-mode coordinator of src/sync_and_play_nats.js
  (module state playedFiles, playQueue, isPlaying, idleTimer, the NATS
  message handler in main, the processQueue tick, and the completion
  callbacks of the spawned aplay and scp child processes).
* syncFileRun embeds the retrying syncFile of the second program in
  src/unnamed/part_001 (exponential backoff with RETRY_DELAY and
  MAX_SYNC_RETRIES).
* syncFilesOnClose and syncFilesResult embed the rsync close-code
  classification of syncFiles in src/sync_and_play.js and
  src/unnamed/part_000.
-/

namespace VoxCPM

/-- Suffix check performed by the NATS handler: the JavaScript code tests
whether the filename ends with the string ".wav".  Expressed over the
character lists of the strings so that it evaluates by kernel reduction. -/
def hasWavSuffix (filename : String) : Bool :=
  List.isSuffixOf ".wav".data filename.data

/-- Module-level mutable state of src/sync_and_play_nats.js, plus two
pieces of instrumentation.

playedFiles mirrors the JavaScript Set of played names; playQueue the
array of queued names.  playing holds the names of in-flight aplay
invocations (the JavaScript isPlaying boolean is true exactly when this
list is non-empty); keeping the list lets us verify, rather than assume,
that playback is never overlapped.  timers counts armed idle timers (the
JavaScript idleTimer variable is non-null exactly when this is non-zero);
keeping a count lets us verify that arming never creates a second timer.
fetches holds the in-flight scp transfers (the fire-and-forget syncFile
calls of the message handler and the awaited syncFile calls of
processQueue); localFiles the set of files present in LOCAL_DIR.

enqueued and playOrder are ghost logs: every accepted push onto playQueue
in order, and every playback start in order. -/
structure CoordState where
  playedFiles : List String
  playQueue : List String
  playing : List String
  timers : Nat
  fetches : List String
  localFiles : List String
  enqueued : List String
  playOrder : List String
deriving Repr, DecidableEq

/-- Events that drive the coordinator of src/sync_and_play_nats.js:
a NATS message carrying an optional filename field, an invocation of
processQueue by the 500 ms interval, the close event of an aplay child
process (success tells whether its exit code was 0), and the close event
of one in-flight scp transfer. -/
inductive Event where
  | arrive (msg : Option String)
  | tick
  | playDone (success : Bool)
  | fetchDone (name : String) (success : Bool)
deriving Repr, DecidableEq

/-- The NATS message handler of src/sync_and_play_nats.js main
(lines 182-221): ignore a message with no filename or the wrong suffix;
skip names already played or already queued; otherwise push onto
playQueue, clear the idle timer, and start a fire-and-forget scp fetch
when the file is not yet local. -/
def natsArrive (s : CoordState) (msg : Option String) : CoordState :=
  match msg with
  | none => s
  | some filename =>
    if hasWavSuffix filename then
      if filename ∈ s.playedFiles then s
      else if filename ∈ s.playQueue then s
      else
        { s with
          playQueue := s.playQueue ++ [filename]
          timers := 0
          fetches :=
            if filename ∈ s.localFiles then s.fetches
            else s.fetches ++ [filename]
          enqueued := s.enqueued ++ [filename] }
    else s

/-- One invocation of processQueue in src/sync_and_play_nats.js
(lines 105-153): with an empty queue and no playback, arm the idle timer
if none is armed; otherwise, when not playing, inspect the head of the
queue: if it exists locally, remove it from the queue and start playing
it; if not, start another scp fetch for it (the awaited syncFile call).
When a playback is in flight the invocation does nothing. -/
def natsTick (s : CoordState) : CoordState :=
  if s.playQueue = [] ∧ s.playing = [] then
    { s with timers := if s.timers = 0 then 1 else s.timers }
  else
    match s.playQueue, s.playing with
    | nextFile :: rest, [] =>
      if nextFile ∈ s.localFiles then
        { s with
          playQueue := rest
          playing := [nextFile]
          playOrder := s.playOrder ++ [nextFile] }
      else
        { s with fetches := s.fetches ++ [nextFile] }
    | _, _ => s

/-- Completion of the awaited playFile call in processQueue
(lines 131-139): on success and on failure alike the file is added to
playedFiles and isPlaying is cleared; the success flag is not consulted. -/
def natsPlayDone (s : CoordState) (_success : Bool) : CoordState :=
  match s.playing with
  | [] => s
  | nextFile :: restPlaying =>
    { s with
      playing := restPlaying
      playedFiles :=
        if nextFile ∈ s.playedFiles then s.playedFiles
        else nextFile :: s.playedFiles }

/-- Close event of one in-flight scp transfer (syncFile, lines 27-69):
a successful transfer materialises the file in LOCAL_DIR; a failed one
changes nothing besides ending the transfer.  Neither touches the queue,
the played set, the playback flag or the idle timer. -/
def natsFetchDone (s : CoordState) (name : String) (success : Bool) : CoordState :=
  if name ∈ s.fetches then
    { s with
      fetches := s.fetches.erase name
      localFiles :=
        if success then
          if name ∈ s.localFiles then s.localFiles else name :: s.localFiles
        else s.localFiles }
  else s

/-- Dispatch one event to its handler. -/
def step (s : CoordState) : Event → CoordState
  | Event.arrive msg => natsArrive s msg
  | Event.tick => natsTick s
  | Event.playDone b => natsPlayDone s b
  | Event.fetchDone n b => natsFetchDone s n b

/-- Initial module state of src/sync_and_play_nats.js: empty played set,
empty queue, not playing, no idle timer, no transfers, empty local
directory. -/
def initState : CoordState :=
  { playedFiles := []
    playQueue := []
    playing := []
    timers := 0
    fetches := []
    localFiles := []
    enqueued := []
    playOrder := [] }

/-- Run the coordinator over a sequence of events from the initial state. -/
def run (events : List Event) : CoordState :=
  events.foldl step initState

/-- The coordinator invariant: the ghost playback log followed by the
pending queue is exactly the accepted-enqueue log (FIFO discipline); at
most one playback is ever in flight; at most one idle timer is ever
armed, and an armed timer implies an empty queue and no playback; the
queue never holds a name twice. -/
def Inv (s : CoordState) : Prop :=
  s.playOrder ++ s.playQueue = s.enqueued ∧
  s.playing.length ≤ 1 ∧
  s.timers ≤ 1 ∧
  (s.timers ≠ 0 → s.playQueue = [] ∧ s.playing = []) ∧
  s.playQueue.Nodup

lemma inv_initState : Inv initState := by
  constructor <;> simp [initState, Inv]

lemma natsArrive_none (s : CoordState) : natsArrive s none = s := rfl

lemma natsArrive_notWav (s : CoordState) (f : String)
    (hw : hasWavSuffix f = false) : natsArrive s (some f) = s := by
  simp [natsArrive, hw]

lemma natsArrive_played (s : CoordState) (f : String)
    (hp : f ∈ s.playedFiles) : natsArrive s (some f) = s := by
  by_cases hw : hasWavSuffix f <;> simp [natsArrive, hw, hp]

lemma natsArrive_queued (s : CoordState) (f : String)
    (hq : f ∈ s.playQueue) : natsArrive s (some f) = s := by
  by_cases hw : hasWavSuffix f
  · by_cases hp : f ∈ s.playedFiles <;> simp [natsArrive, hw, hp, hq]
  · simp [natsArrive, hw]

lemma natsArrive_accepted (s : CoordState) (f : String)
    (hw : hasWavSuffix f = true) (hp : f ∉ s.playedFiles)
    (hq : f ∉ s.playQueue) :
    natsArrive s (some f) =
      { s with
        playQueue := s.playQueue ++ [f]
        timers := 0
        fetches :=
          if f ∈ s.localFiles then s.fetches else s.fetches ++ [f]
        enqueued := s.enqueued ++ [f] } := by
  simp [natsArrive, hw, hp, hq]

lemma natsTick_idle (s : CoordState) (hq : s.playQueue = [])
    (hp : s.playing = []) :
    natsTick s = { s with timers := if s.timers = 0 then 1 else s.timers } := by
  rw [natsTick, if_pos ⟨hq, hp⟩]

lemma natsTick_play (s : CoordState) (f : String) (rest : List String)
    (hq : s.playQueue = f :: rest) (hp : s.playing = [])
    (hl : f ∈ s.localFiles) :
    natsTick s =
      { s with
        playQueue := rest
        playing := [f]
        playOrder := s.playOrder ++ [f] } := by
  rw [natsTick, if_neg (by simp [hq]), hq, hp]
  simp [hl]

lemma natsTick_fetch (s : CoordState) (f : String) (rest : List String)
    (hq : s.playQueue = f :: rest) (hp : s.playing = [])
    (hl : f ∉ s.localFiles) :
    natsTick s = { s with fetches := s.fetches ++ [f] } := by
  rw [natsTick, if_neg (by simp [hq]), hq, hp]
  simp [hl]

lemma natsTick_busy (s : CoordState) (p : String) (pr : List String)
    (hp : s.playing = p :: pr) : natsTick s = s := by
  rw [natsTick, if_neg (by simp [hp]), hp]
  cases hq : s.playQueue <;> rfl

lemma natsPlayDone_nil (s : CoordState) (b : Bool) (hp : s.playing = []) :
    natsPlayDone s b = s := by
  rw [natsPlayDone, hp]

lemma natsPlayDone_cons (s : CoordState) (b : Bool) (f : String)
    (pr : List String) (hp : s.playing = f :: pr) :
    natsPlayDone s b =
      { s with
        playing := pr
        playedFiles :=
          if f ∈ s.playedFiles then s.playedFiles
          else f :: s.playedFiles } := by
  rw [natsPlayDone, hp]

lemma natsFetchDone_mem (s : CoordState) (n : String) (b : Bool)
    (hf : n ∈ s.fetches) :
    natsFetchDone s n b =
      { s with
        fetches := s.fetches.erase n
        localFiles :=
          if b then
            if n ∈ s.localFiles then s.localFiles else n :: s.localFiles
          else s.localFiles } := by
  rw [natsFetchDone, if_pos hf]

lemma natsFetchDone_notMem (s : CoordState) (n : String) (b : Bool)
    (hf : n ∉ s.fetches) : natsFetchDone s n b = s := by
  rw [natsFetchDone, if_neg hf]

lemma inv_natsArrive (s : CoordState) (m : Option String) (h : Inv s) :
    Inv (natsArrive s m) := by
  obtain ⟨h1, h2, h3, h4, h5⟩ := h
  cases m with
  | none => exact ⟨h1, h2, h3, h4, h5⟩
  | some f =>
    by_cases hw : hasWavSuffix f
    · by_cases hp : f ∈ s.playedFiles
      · rw [natsArrive_played s f hp]; exact ⟨h1, h2, h3, h4, h5⟩
      · by_cases hq : f ∈ s.playQueue
        · rw [natsArrive_queued s f hq]; exact ⟨h1, h2, h3, h4, h5⟩
        · rw [natsArrive_accepted s f hw hp hq]
          refine ⟨?_, h2, by simp, by simp, ?_⟩
          · show s.playOrder ++ (s.playQueue ++ [f]) = s.enqueued ++ [f]
            rw [← List.append_assoc, h1]
          · show (s.playQueue ++ [f]).Nodup
            simp [List.nodup_append, h5, hq]
    · rw [natsArrive_notWav s f (by simpa using hw)]
      exact ⟨h1, h2, h3, h4, h5⟩

lemma inv_natsTick (s : CoordState) (h : Inv s) : Inv (natsTick s) := by
  obtain ⟨h1, h2, h3, h4, h5⟩ := h
  cases hp : s.playing with
  | cons p pr => rw [natsTick_busy s p pr hp]; exact ⟨h1, h2, h3, h4, h5⟩
  | nil =>
    cases hq : s.playQueue with
    | nil =>
      rw [natsTick_idle s hq hp]
      refine ⟨h1, h2, ?_, fun _ => ⟨hq, hp⟩, h5⟩
      by_cases ht : s.timers = 0 <;> simp [ht, h3]
    | cons f rest =>
      have hto : s.timers = 0 := by
        by_contra ht
        exact (List.cons_ne_nil f rest) (hq ▸ (h4 ht).1)
      by_cases hl : f ∈ s.localFiles
      · rw [natsTick_play s f rest hq hp hl]
        refine ⟨?_, by simp, h3, by simp [hto], ?_⟩
        · show (s.playOrder ++ [f]) ++ rest = s.enqueued
          rw [List.append_assoc]
          simpa [hq] using h1
        · exact (List.nodup_cons.mp (hq ▸ h5)).2
      · rw [natsTick_fetch s f rest hq hp hl]
        exact ⟨h1, h2, h3, by simp [hto], h5⟩

lemma inv_natsPlayDone (s : CoordState) (b : Bool) (h : Inv s) :
    Inv (natsPlayDone s b) := by
  obtain ⟨h1, h2, h3, h4, h5⟩ := h
  cases hp : s.playing with
  | nil => rw [natsPlayDone_nil s b hp]; exact ⟨h1, h2, h3, h4, h5⟩
  | cons f pr =>
    have hto : s.timers = 0 := by
      by_contra ht
      exact (List.cons_ne_nil f pr) (hp ▸ (h4 ht).2)
    rw [natsPlayDone_cons s b f pr hp]
    refine ⟨h1, ?_, h3, by simp [hto], h5⟩
    have : (f :: pr).length ≤ 1 := hp ▸ h2
    simpa using Nat.le_trans (by simp) this

lemma inv_natsFetchDone (s : CoordState) (n : String) (b : Bool) (h : Inv s) :
    Inv (natsFetchDone s n b) := by
  obtain ⟨h1, h2, h3, h4, h5⟩ := h
  by_cases hf : n ∈ s.fetches
  · rw [natsFetchDone_mem s n b hf]; exact ⟨h1, h2, h3, h4, h5⟩
  · rw [natsFetchDone_notMem s n b hf]; exact ⟨h1, h2, h3, h4, h5⟩

lemma inv_step (s : CoordState) (e : Event) (h : Inv s) : Inv (step s e) := by
  cases e with
  | arrive m => exact inv_natsArrive s m h
  | tick => exact inv_natsTick s h
  | playDone b => exact inv_natsPlayDone s b h
  | fetchDone n b => exact inv_natsFetchDone s n b h

lemma inv_foldl (tr : List Event) (s : CoordState) (h : Inv s) :
    Inv (tr.foldl step s) := by
  induction tr generalizing s with
  | nil => exact h
  | cons e tl ih => exact ih (step s e) (inv_step s e h)

lemma inv_run (tr : List Event) : Inv (run tr) :=
  inv_foldl tr initState inv_initState

/-- Base delay between retries in the second program of
src/unnamed/part_001 (RETRY_DELAY is 2000 ms there). -/
def RETRY_DELAY : Nat := 2000

/-- Maximum number of retries configured in src/unnamed/part_001
(MAX_SYNC_RETRIES is 3 there). -/
def MAX_SYNC_RETRIES : Nat := 3

/-- Classification of one scp close event as performed by the syncFile of
src/unnamed/part_001: exit code 0 is a success; a connection-level
failure (stderr matching the connection patterns, or exit code 255) is
retryable; any other non-zero exit rejects immediately. -/
inductive ScpOutcome where
  | ok
  | connErr
  | otherErr
deriving Repr, DecidableEq

/-- Result of running syncFile to completion: whether the returned
promise resolved, the total backoff delay waited between attempts, and
how many scp invocations were made. -/
structure SyncRun where
  success : Bool
  totalDelay : Nat
  attempts : Nat
deriving Repr, DecidableEq

/-- The retrying syncFile of the second program in src/unnamed/part_001
(lines 253-336): each list element is the outcome of one scp invocation;
on a connection error with retryCount below MAX_SYNC_RETRIES the call
waits RETRY_DELAY times 2 to the power retryCount and recurses with
retryCount plus one; otherwise it settles.  The base delay and the retry
cap are parameters so the schedule can be stated for any base.  An empty
outcome list (more invocations demanded than outcomes supplied) settles
as a failed run with no attempts; theorems only use lists long enough to
cover every attempt. -/
def syncFileRun (base maxRetries : Nat) :
    List ScpOutcome → Nat → SyncRun
  | [], _ => { success := false, totalDelay := 0, attempts := 0 }
  | o :: rest, retryCount =>
    match o with
    | ScpOutcome.ok => { success := true, totalDelay := 0, attempts := 1 }
    | ScpOutcome.connErr =>
      if retryCount < maxRetries then
        let r := syncFileRun base maxRetries rest (retryCount + 1)
        { success := r.success
          totalDelay := base * 2 ^ retryCount + r.totalDelay
          attempts := r.attempts + 1 }
      else { success := false, totalDelay := 0, attempts := 1 }
    | ScpOutcome.otherErr => { success := false, totalDelay := 0, attempts := 1 }

lemma syncFileRun_attempts_le (base maxRetries : Nat)
    (outs : List ScpOutcome) (k : Nat) :
    (syncFileRun base maxRetries outs k).attempts ≤ maxRetries - k + 1 := by
  induction outs generalizing k with
  | nil => simp [syncFileRun]
  | cons o rest ih =>
    cases o with
    | ok => simp [syncFileRun]
    | connErr =>
      by_cases hk : k < maxRetries
      · rw [syncFileRun, if_pos hk]
        have h1 := ih (k + 1)
        have h2 : maxRetries - (k + 1) + 1 ≤ maxRetries - k := by omega
        simpa using Nat.add_le_add_right (Nat.le_trans h1 h2) 1
      · rw [syncFileRun, if_neg hk]
        simp
    | otherErr => simp [syncFileRun]

/-- Flags recording which connection-failure patterns the captured rsync
stderr contains, mirroring the three stderr.includes checks of syncFiles
in src/sync_and_play.js (lines 97-100) and src/unnamed/part_000. -/
structure RsyncStderr where
  hasConnRefused : Bool
  hasConnTimedOut : Bool
  hasNetUnreachable : Bool
deriving Repr, DecidableEq

/-- The isConnectionError test of syncFiles: any of the three stderr
patterns, or exit code 255 (SSH connection error). -/
def rsyncIsConnectionError (e : RsyncStderr) (code : Nat) : Bool :=
  e.hasConnRefused || e.hasConnTimedOut || e.hasNetUnreachable || code == 255

/-- How the close handler of syncFiles settles the promise in
src/sync_and_play.js (lines 92-116): every close path resolves; the
branches differ only in classification (and logging). -/
inductive RsyncResolution where
  | cleanSuccess
  | connectionIssue
  | notCritical
  | warned
deriving Repr, DecidableEq

/-- Overall settlement of the syncFiles promise: the close handler always
resolves; only a spawn error (the error event) rejects. -/
inductive RsyncOutcome where
  | resolved (r : RsyncResolution)
  | rejected
deriving Repr, DecidableEq

/-- The close handler of syncFiles in src/sync_and_play.js
(lines 92-116) and src/unnamed/part_000 (lines 100-124): code 0 resolves
as success; connection-level errors resolve and will be retried by the
next periodic sync; codes 23 and 24 (partial transfer or vanished source
files) resolve as not critical; every other code resolves with a logged
warning. -/
def syncFilesOnClose (code : Nat) (e : RsyncStderr) : RsyncResolution :=
  if code = 0 then RsyncResolution.cleanSuccess
  else if rsyncIsConnectionError e code then RsyncResolution.connectionIssue
  else if code = 23 ∨ code = 24 then RsyncResolution.notCritical
  else RsyncResolution.warned

/-- The two ways the spawned rsync can end: a close event with an exit
code and captured stderr, or a spawn error. -/
inductive RsyncEvent where
  | closed (code : Nat) (e : RsyncStderr)
  | spawnErr
deriving Repr, DecidableEq

/-- Settlement of the syncFiles promise for each ending. -/
def syncFilesResult : RsyncEvent → RsyncOutcome
  | RsyncEvent.closed code e => RsyncOutcome.resolved (syncFilesOnClose code e)
  | RsyncEvent.spawnErr => RsyncOutcome.rejected

/-- Scenario B of the spec: seg_002.wav arrives before seg_001.wav in
push mode; the fetch of seg_001.wav completes first, yet both plays
happen in arrival order. -/
def scenarioB : List Event :=
  [Event.arrive (some "seg_002.wav"),
   Event.arrive (some "seg_001.wav"),
   Event.fetchDone "seg_001.wav" true,
   Event.fetchDone "seg_002.wav" true,
   Event.tick, Event.playDone true,
   Event.tick, Event.playDone true]

/-- A duplicate of seg_001.wav arrives while the first copy is being
played: after the queue head was shifted (tick) and before playback
completed, so the name is in neither playedFiles nor playQueue. -/
def c2Trace : List Event :=
  [Event.arrive (some "seg_001.wav"),
   Event.fetchDone "seg_001.wav" true,
   Event.tick,
   Event.arrive (some "seg_001.wav"),
   Event.playDone true,
   Event.tick,
   Event.playDone true]

/-- The fetch of seg_009.wav fails five times in a row, exceeding any
configured retry maximum (MAX_SYNC_RETRIES is 3). -/
def c3Trace : List Event :=
  [Event.arrive (some "seg_009.wav"),
   Event.fetchDone "seg_009.wav" false,
   Event.tick, Event.fetchDone "seg_009.wav" false,
   Event.tick, Event.fetchDone "seg_009.wav" false,
   Event.tick, Event.fetchDone "seg_009.wav" false,
   Event.tick, Event.fetchDone "seg_009.wav" false]

/-- Two arrivals of files that are not yet local: the message handler
starts a fire-and-forget scp for each. -/
def c4Trace : List Event :=
  [Event.arrive (some "seg_004.wav"), Event.arrive (some "seg_005.wav")]

/-- The arrival starts a fetch; a tick starts a second fetch for the
same head; one fetch succeeds, the file is played, and the final tick
arms the idle timer while the other scp is still running. -/
def c5Trace : List Event :=
  [Event.arrive (some "seg_006.wav"), Event.tick,
   Event.fetchDone "seg_006.wav" true, Event.tick,
   Event.playDone true, Event.tick]

/-- Playback of seg_007.wav fails (non-zero aplay exit), then the next
tick starts seg_008.wav. -/
def c6Trace : List Event :=
  [Event.arrive (some "seg_007.wav"), Event.arrive (some "seg_008.wav"),
   Event.fetchDone "seg_007.wav" true, Event.fetchDone "seg_008.wav" true,
   Event.tick, Event.playDone false, Event.tick]

/-- A state in which seg_007.wav is currently being played. -/
def c6PlayingTrace : List Event :=
  [Event.arrive (some "seg_007.wav"), Event.fetchDone "seg_007.wav" true,
   Event.tick]

/-- C1: for every sequence of push-mode arrival events the coordinator
plays files in the exact order they were first enqueued, regardless of
fetch completion order: the playback log followed by the pending queue
always equals the accepted-enqueue log, and in particular enqueueing
seg_002.wav then seg_001.wav plays seg_002.wav first even though the
fetch of seg_001.wav completes first. -/
theorem c1_playback_fifo_order :
    (∀ tr : List Event,
      (run tr).playOrder ++ (run tr).playQueue = (run tr).enqueued) ∧
    (run scenarioB).playOrder = ["seg_002.wav", "seg_001.wav"] :=
  ⟨fun tr => (inv_run tr).1, by decide⟩

/-- C2 counterexample: a name is not enqueued at most once for the
lifetime of the process.  A duplicate arrival while the first copy is
being played (shifted off the queue, not yet in playedFiles) passes both
dedup checks, so seg_001.wav is accepted into the queue twice and is
even played twice. -/
theorem c2_duplicate_enqueue_counterexample :
    ¬ ((run c2Trace).enqueued.count "seg_001.wav" ≤ 1) ∧
    (run c2Trace).playOrder = ["seg_001.wav", "seg_001.wav"] := by
  decide

/-- C2 amended: an arrival whose name is already in the play queue or in
the played set is a no-op on the whole state, so enqueueing the same
name twice in a row leaves the queue at length 1 and the queue never
holds a name twice; but a name can be enqueued again if it re-arrives
while it is being played, so at-most-once-per-lifetime does not hold. -/
theorem c2_dedup_noop_amended :
    (∀ s : CoordState, ∀ f : String,
      f ∈ s.playedFiles ∨ f ∈ s.playQueue → natsArrive s (some f) = s) ∧
    (run [Event.arrive (some "seg_001.wav"),
          Event.arrive (some "seg_001.wav")]).playQueue.length = 1 ∧
    (∀ tr : List Event, (run tr).playQueue.Nodup) := by
  refine ⟨?_, by decide, fun tr => (inv_run tr).2.2.2.2⟩
  rintro s f (hp | hq)
  · exact natsArrive_played s f hp
  · exact natsArrive_queued s f hq

/-- C2 amended witness: concrete application of the dedup no-op at a
state whose queue already holds seg_001.wav. -/
theorem c2_dedup_noop_amended_witness :
    natsArrive (run [Event.arrive (some "seg_001.wav")])
        (some "seg_001.wav") =
      run [Event.arrive (some "seg_001.wav")] :=
  c2_dedup_noop_amended.1 _ "seg_001.wav" (Or.inr (by decide))

/-- C3 counterexample: after five consecutive fetch failures for
seg_009.wav (exceeding MAX_SYNC_RETRIES) the artifact is neither marked
nor removed from the head of the queue: the queue has not advanced and
nothing was recorded as played, contradicting the claimed
skip-after-exhaustion. -/
theorem c3_no_skip_counterexample :
    (run c3Trace).playQueue = ["seg_009.wav"] ∧
    (run c3Trace).playedFiles = [] ∧
    (run c3Trace).playOrder = [] := by
  decide

/-- C3 amended: a fetch failure never changes the queue or the played
set; the failed artifact stays at the head and every subsequent tick
starts a fresh fetch for it (retry on next cycle, with no skip and no
attempt bound), so a permanently failing artifact blocks the queue. -/
theorem c3_fetch_failure_keeps_queue_amended :
    (∀ s : CoordState, ∀ f : String,
      (natsFetchDone s f false).playQueue = s.playQueue ∧
      (natsFetchDone s f false).playedFiles = s.playedFiles) ∧
    (∀ s : CoordState, ∀ f : String, ∀ rest : List String,
      s.playQueue = f :: rest → s.playing = [] → f ∉ s.localFiles →
      (natsTick s).playQueue = s.playQueue ∧
      (natsTick s).fetches = s.fetches ++ [f]) := by
  constructor
  · intro s f
    by_cases hf : f ∈ s.fetches
    · rw [natsFetchDone_mem s f false hf]; exact ⟨rfl, rfl⟩
    · rw [natsFetchDone_notMem s f false hf]; exact ⟨rfl, rfl⟩
  · intro s f rest hq hp hl
    rw [natsTick_fetch s f rest hq hp hl]
    exact ⟨rfl, rfl⟩

/-- C3 amended witness: concrete application at a state whose head
seg_009.wav is not local: the tick re-fetches and leaves the queue. -/
theorem c3_fetch_failure_keeps_queue_amended_witness :
    (natsTick (run [Event.arrive (some "seg_009.wav")])).playQueue =
      (run [Event.arrive (some "seg_009.wav")]).playQueue ∧
    (natsTick (run [Event.arrive (some "seg_009.wav")])).fetches =
      (run [Event.arrive (some "seg_009.wav")]).fetches ++ ["seg_009.wav"] :=
  c3_fetch_failure_keeps_queue_amended.2 _ "seg_009.wav" []
    (by decide) (by decide) (by decide)

/-- C4 counterexample: transfers are not serialized: two arrivals of
distinct missing files each start a fire-and-forget scp immediately, so
two transfers are in flight at once. -/
theorem c4_concurrent_fetch_counterexample :
    ¬ ((run c4Trace).fetches.length ≤ 1) := by
  decide

/-- C4 amended: at most one artifact is ever being played (the isPlaying
flag serializes playback), but transfers are not serialized and several
scp fetches can be in flight concurrently. -/
theorem c4_single_playback_amended :
    ∀ tr : List Event, (run tr).playing.length ≤ 1 :=
  fun tr => (inv_run tr).2.1

/-- C5 counterexample: the idle timer can be armed while a fetch is
still in flight, so the timer is not armed exactly when the queue is
empty and no playback or fetch is in flight. -/
theorem c5_timer_armed_during_fetch_counterexample :
    (run c5Trace).timers = 1 ∧ (run c5Trace).fetches ≠ [] := by
  decide

/-- C5 amended: the idle timer is armed only when the queue is empty and
no playback is in flight (in-flight fetches are not consulted and the
timer can be armed while an scp transfer is still running); arming is
idempotent, so a second check never creates a second timer; and any
accepted enqueue disarms the timer. -/
theorem c5_idle_timer_amended :
    (∀ tr : List Event, (run tr).timers ≤ 1) ∧
    (∀ tr : List Event, (run tr).timers ≠ 0 →
      (run tr).playQueue = [] ∧ (run tr).playing = []) ∧
    (∀ s : CoordState, ∀ f : String,
      hasWavSuffix f = true → f ∉ s.playedFiles → f ∉ s.playQueue →
      (natsArrive s (some f)).timers = 0) := by
  refine ⟨fun tr => (inv_run tr).2.2.1, fun tr => (inv_run tr).2.2.2.1, ?_⟩
  intro s f hw hp hq
  rw [natsArrive_accepted s f hw hp hq]

/-- C5 amended witness: concrete applications: one tick from the initial
state arms the timer in an empty idle state, and an accepted arrival
clears the timer. -/
theorem c5_idle_timer_amended_witness :
    ((run [Event.tick]).playQueue = [] ∧ (run [Event.tick]).playing = []) ∧
    (natsArrive initState (some "seg_001.wav")).timers = 0 :=
  ⟨c5_idle_timer_amended.2.1 [Event.tick] (by decide),
   c5_idle_timer_amended.2.2 initState "seg_001.wav"
     (by decide) (by decide) (by decide)⟩

/-- C6: a failed playback is handled exactly like a successful one: the
artifact is added to playedFiles, the playback slot is freed (the head
was already removed from the queue when playback started), and the next
artifact is started on the following tick, as the concrete trace where
seg_007.wav fails and seg_008.wav still plays shows. -/
theorem c6_playback_failure_marks_done :
    (∀ s : CoordState, ∀ b : Bool, natsPlayDone s b = natsPlayDone s true) ∧
    (∀ s : CoordState, ∀ f : String, ∀ pr : List String,
      s.playing = f :: pr →
      f ∈ (natsPlayDone s false).playedFiles ∧
      (natsPlayDone s false).playing = pr) ∧
    ((run c6Trace).playOrder = ["seg_007.wav", "seg_008.wav"] ∧
      "seg_007.wav" ∈ (run c6Trace).playedFiles) := by
  refine ⟨fun s b => rfl, ?_, by decide⟩
  intro s f pr hp
  rw [natsPlayDone_cons s false f pr hp]
  constructor
  · by_cases hm : f ∈ s.playedFiles <;> simp [hm]
  · rfl

/-- C6 witness: concrete application at a state in which seg_007.wav is
being played: the failed completion marks it played and frees the slot. -/
theorem c6_playback_failure_marks_done_witness :
    "seg_007.wav" ∈ (natsPlayDone (run c6PlayingTrace) false).playedFiles ∧
    (natsPlayDone (run c6PlayingTrace) false).playing = [] :=
  c6_playback_failure_marks_done.2.1 _ "seg_007.wav" [] (by decide)

/-- C7: the retrying syncFile waits base times 2 to the power attempt
before each retry, with attempt starting at 0 and at most
MAX_SYNC_RETRIES retries (so at most MAX_SYNC_RETRIES plus one scp
invocations): two transient failures followed by a success resolve
successfully with total delay base times 2 to the 0 plus base times 2 to
the 1, after exactly three invocations. -/
theorem c7_exponential_backoff :
    (∀ base : Nat,
      syncFileRun base MAX_SYNC_RETRIES
          [ScpOutcome.connErr, ScpOutcome.connErr, ScpOutcome.ok] 0 =
        { success := true
          totalDelay := base * 2 ^ 0 + base * 2 ^ 1
          attempts := 3 }) ∧
    (∀ base maxRetries : Nat, ∀ outs : List ScpOutcome, ∀ k : Nat,
      (syncFileRun base maxRetries outs k).attempts ≤ maxRetries - k + 1) ∧
    MAX_SYNC_RETRIES = 3 ∧ RETRY_DELAY = 2000 := by
  refine ⟨?_, syncFileRun_attempts_le, rfl, rfl⟩
  intro base
  show syncFileRun base 3 _ 0 = _
  simp [syncFileRun]

/-- C8: an rsync close with exit code 23 or 24 (partial transfer or
vanished source files) is classified as not critical and resolves the
sync promise (soft success): it is never rejected, no retry is
triggered, and no failure is recorded; what happens to the artifact is
left to the local-existence check at playback time. -/
theorem c8_partial_transfer_soft_success :
    (∀ e : RsyncStderr, rsyncIsConnectionError e 23 = false →
      syncFilesOnClose 23 e = RsyncResolution.notCritical) ∧
    (∀ e : RsyncStderr, rsyncIsConnectionError e 24 = false →
      syncFilesOnClose 24 e = RsyncResolution.notCritical) ∧
    (∀ code : Nat, ∀ e : RsyncStderr,
      syncFilesResult (RsyncEvent.closed code e) ≠ RsyncOutcome.rejected) := by
  refine ⟨?_, ?_, ?_⟩
  · intro e he; simp [syncFilesOnClose, he]
  · intro e he; simp [syncFilesOnClose, he]
  · intro code e; simp [syncFilesResult]

/-- C8 witness: concrete application with clean stderr. -/
theorem c8_partial_transfer_soft_success_witness :
    syncFilesOnClose 23
        { hasConnRefused := false, hasConnTimedOut := false,
          hasNetUnreachable := false } =
      RsyncResolution.notCritical :=
  c8_partial_transfer_soft_success.1 _ (by decide)

/-- C9: a push message whose payload has no filename, or whose filename
does not end in .wav, leaves the whole coordinator state unchanged:
nothing is enqueued, the played set is untouched and the idle timer is
not reset. -/
theorem c9_invalid_message_noop :
    ∀ s : CoordState,
      natsArrive s none = s ∧
      ∀ f : String, hasWavSuffix f = false → natsArrive s (some f) = s :=
  fun s => ⟨natsArrive_none s, fun f hw => natsArrive_notWav s f hw⟩

/-- C9 witness: concrete application at a state with an armed idle
timer: a non-wav filename leaves the state, timer included, unchanged. -/
theorem c9_invalid_message_noop_witness :
    natsArrive (run [Event.tick]) (some "seg_001.txt") = run [Event.tick] :=
  (c9_invalid_message_noop (run [Event.tick])).2 "seg_001.txt" (by decide)

/-- C10: the queue head is removed only when the queue is non-empty and
the head file exists locally: every step either leaves the queue
unchanged, appends one name at the tail, or removes the head of a
non-empty queue whose head is in local storage; in particular a fetch
failure leaves the queue unchanged and no removal from an empty queue
ever occurs. -/
theorem c10_queue_pop_safety :
    (∀ s : CoordState, ∀ e : Event,
      (step s e).playQueue = s.playQueue ∨
      (∃ f : String, (step s e).playQueue = s.playQueue ++ [f]) ∨
      (∃ f : String, ∃ rest : List String,
        s.playQueue = f :: rest ∧ f ∈ s.localFiles ∧
        (step s e).playQueue = rest)) ∧
    (∀ s : CoordState, ∀ f : String,
      (step s (Event.fetchDone f false)).playQueue = s.playQueue) := by
  constructor
  · intro s e
    cases e with
    | arrive m =>
      cases m with
      | none => exact Or.inl (by simp only [step, natsArrive_none])
      | some f =>
        by_cases hw : hasWavSuffix f
        · by_cases hp : f ∈ s.playedFiles
          · exact Or.inl (by simp only [step, natsArrive_played s f hp])
          · by_cases hq : f ∈ s.playQueue
            · exact Or.inl (by simp only [step, natsArrive_queued s f hq])
            · refine Or.inr (Or.inl ⟨f, ?_⟩)
              simp only [step, natsArrive_accepted s f hw hp hq]
        · exact Or.inl
            (by simp only [step, natsArrive_notWav s f (by simpa using hw)])
    | tick =>
      cases hp : s.playing with
      | cons p pr => exact Or.inl (by simp only [step, natsTick_busy s p pr hp])
      | nil =>
        cases hq : s.playQueue with
        | nil => exact Or.inl (by simp only [step, natsTick_idle s hq hp, hq])
        | cons f rest =>
          by_cases hl : f ∈ s.localFiles
          · exact Or.inr (Or.inr ⟨f, rest, rfl, hl,
              by simp only [step, natsTick_play s f rest hq hp hl]⟩)
          · exact Or.inl
              (by simp only [step, natsTick_fetch s f rest hq hp hl, hq])
    | playDone b =>
      cases hp : s.playing with
      | nil => exact Or.inl (by simp only [step, natsPlayDone_nil s b hp])
      | cons f pr => exact Or.inl (by simp only [step, natsPlayDone_cons s b f pr hp])
    | fetchDone n b =>
      by_cases hf : n ∈ s.fetches
      · exact Or.inl (by simp only [step, natsFetchDone_mem s n b hf])
      · exact Or.inl (by simp only [step, natsFetchDone_notMem s n b hf])
  · intro s f
    by_cases hf : f ∈ s.fetches
    · simp only [step, natsFetchDone_mem s f false hf]
    · simp only [step, natsFetchDone_notMem s f false hf]

end VoxCPM
